import Mathlib

/-
Verification development for the Savoir WhatsApp-assistant backend.

The definitions below are a shallow embedding of the Python source:
  - app/domain/r2r/client.py        (R2RClient: _make_request, collections, ...)
  - app/domain/r2r/documents.py     (the registered create_document handler)
  - app/domain/r2r/handlers.py      (the validated create_document variant)
  - app/domain/openai/tools.py      (the dispatch table)
  - app/domain/openai/assistant.py  (the conversational run engine)

Network interactions are modelled by explicit oracle records (one field per
remote primitive, `Except String` for "raised an exception with this message"),
and side effects are recorded in explicit effect traces, so that statements
such as "no message is appended" or "exactly one submission is sent" are
statements about the trace of the embedded function.
-/

namespace Savoir

/-- JSON values as the Python code handles them: dicts, lists, strings,
integers, booleans and None. Dicts are association lists (first binding wins). -/
inductive Json where
  | null : Json
  | bool : Bool → Json
  | num : Int → Json
  | str : String → Json
  | arr : List Json → Json
  | obj : List (String × Json) → Json

/-- Python `d.get(key, default)`: returns the binding or the default on a dict,
raises AttributeError on any non-dict receiver. -/
def pyGet (j : Json) (key : String) (dflt : Json) : Except String Json :=
  match j with
  | .obj kvs => .ok ((kvs.lookup key).getD dflt)
  | _ => .error "AttributeError: object has no attribute get"

/-- Python truthiness of a JSON value (`if not response: ...`). -/
def pyTruthy : Json → Bool
  | .null => false
  | .bool b => b
  | .num n => n != 0
  | .str s => s != ""
  | .arr xs => !xs.isEmpty
  | .obj kvs => !kvs.isEmpty

/-- Python `key in container`: key lookup on dicts, element equality on lists,
substring test on strings; TypeError on anything else. -/
def pyContains (j : Json) (key : String) : Except String Bool :=
  match j with
  | .obj kvs => .ok (kvs.lookup key).isSome
  | .arr xs => .ok (xs.any fun x => match x with | .str s => s == key | _ => false)
  | .str s => .ok ((s.splitOn key).length != 1)
  | _ => .error "TypeError: argument is not iterable"

/-- Python str() of the message object carried by an exception; list and dict
renderings are abbreviated (they never occur on a live path here). -/
def pyStr : Json → String
  | .str s => s
  | .null => "None"
  | .bool true => "True"
  | .bool false => "False"
  | .num n => toString n
  | .arr _ => "[...]"
  | .obj _ => "\x7b...\x7d"

/-- Outcome of one HTTP exchange as seen by R2RClient._make_request: either the
request/response machinery raised (transport error: connection refused,
timeout, ...), or a response arrived with an HTTP status code and a body text
whose JSON parse either succeeded (`some value`) or failed (`none`). -/
inductive RemoteOutcome where
  | exn : String → RemoteOutcome
  | response : Nat → String → Option Json → RemoteOutcome

/-- The uniform error shape the client returns for remote failures. -/
def errShape (e : Json) : Json :=
  .obj [("success", .bool false), ("error", e)]

/-- Recognizes the error shape. -/
def isErrShape : Json → Bool
  | .obj [("success", .bool false), ("error", _)] => true
  | _ => false

/-- R2RClient._make_request. The whole body sits in one try/except, so the
R2RError raised for invalid JSON on a sub-400 status, and the AttributeError
raised when `response_data.get` is applied to a non-dict body, are both caught
by the outer handler and converted to the error shape; the function as a whole
never raises. -/
def make_request : RemoteOutcome → Json
  | .exn e => errShape (.str e)
  | .response status text parsed =>
    match parsed with
    | none =>
      if 400 ≤ status then errShape (.str text)
      else errShape (.str ("Invalid JSON response: " ++ text))
    | some data =>
      if status < 400 then data
      else
        match pyGet data "error" (.str "Unknown error") with
        | .error e => errShape (.str e)
        | .ok inner =>
          match pyGet data "message" inner with
          | .error e => errShape (.str e)
          | .ok msg => errShape msg

/-- An outgoing HTTP request of the retrieval client (method, endpoint, query
parameters). -/
structure HttpRequest where
  method : String
  endpoint : String
  params : List (String × Int)

/-- The query parameters R2RClient.collections builds: the caller's offset, and
the limit clamped with min(limit, 1000). -/
def collections_request (offset limit : Int) : HttpRequest :=
  { method := "GET", endpoint := "/collections",
    params := [("offset", offset), ("limit", min limit 1000)] }

/-- R2RClient.collections: builds the query parameters (clamping limit), issues
the GET, then checks `if not response or "results" not in response` and returns
the error shape when the check fails. A TypeError from the membership test on a
non-container response propagates (collections has no try/except of its own). -/
def collections (offset limit : Int) (remote : RemoteOutcome) :
    HttpRequest × Except String Json :=
  let req := collections_request offset limit
  let response := make_request remote
  let checked : Except String Json :=
    if !(pyTruthy response) then
      .ok (errShape (.str "Invalid response format from collections API"))
    else
      match pyContains response "results" with
      | .error e => .error e
      | .ok has =>
        if has then .ok response
        else .ok (errShape (.str "Invalid response format from collections API"))
  (req, checked)

/-- The TypeError message produced when r2r_client.create_document (signature:
one parameter, raw_text) is called with two positional arguments. -/
def create_document_arity_error : String :=
  "create_document() takes 2 positional arguments but 3 were given"

/-- A call to r2r_client.create_document with a list of positional arguments.
The method's signature has the single parameter raw_text, so passing more than
one argument raises TypeError before the body runs (zero HTTP requests);
otherwise it performs the POST /documents request and returns the client
result. -/
def call_create_document (args : List Json) (remote : RemoteOutcome) :
    Except String Json × List HttpRequest :=
  if args.length ≤ 1 then
    (.ok (make_request remote), [⟨"POST", "/documents", []⟩])
  else
    (.error create_document_arity_error, [])

/-- errors.create_success_response. -/
def create_success_response (data : Json) : Json :=
  .obj [("success", .bool true), ("data", data), ("error", .null)]

/-- The create_document handler registered in the dispatch table
(app/domain/r2r/documents.py, imported by app/domain/openai/tools.py). Its body
performs no argument validation and calls r2r_client.create_document(content,
metadata) — two positional arguments against a one-parameter method — so the
call raises TypeError inside the try block, which the except clause wraps into
R2RError("Error creating document: ..."). The remaining body (modelled below
for fidelity) is unreachable. The handle_r2r_error decorator re-raises
R2RErrors and passes successful results through. -/
def handle_create_document (content : String) (metadata : Option Json)
    (remote : RemoteOutcome) : Except String Json × List HttpRequest :=
  match call_create_document [.str content, metadata.getD .null] remote with
  | (.error e, reqs) => (.error ("Error creating document: " ++ e), reqs)
  | (.ok response, reqs) =>
    match pyGet response "success" .null with
    | .error e => (.error ("Error creating document: " ++ e), reqs)
    | .ok successVal =>
      if !(pyTruthy successVal) then
        match pyGet response "error" (.str "Failed to create document") with
        | .error e => (.error ("Error creating document: " ++ e), reqs)
        | .ok errVal => (.error ("Error creating document: " ++ pyStr errVal), reqs)
      else
        match pyGet response "data" .null with
        | .error e => (.error ("Error creating document: " ++ e), reqs)
        | .ok data => (.ok (create_success_response data), reqs)

/-- Python `not s.strip()`: the strip of s is empty exactly when every
character of s is whitespace. -/
def isBlank (s : String) : Bool :=
  s.toList.all Char.isWhitespace

/-- The validated create_document variant (app/domain/r2r/handlers.py) — the
variant the dispatch table does NOT import. It checks blank text and a missing
collection id before any client call; every R2RError raised inside the try
block is re-wrapped by the except clause with the prefix "Failed to create
document: ". -/
def handle_create_document_validated (raw_text collection_id : String)
    (createRemote addRemote : RemoteOutcome) : Except String Json × List HttpRequest :=
  if raw_text == "" || isBlank raw_text then
    (.error "Failed to create document: Document content cannot be empty", [])
  else if collection_id == "" then
    (.error "Failed to create document: Collection ID is required", [])
  else
    let response := make_request createRemote
    let reqs : List HttpRequest := [⟨"POST", "/documents", []⟩]
    if !(pyTruthy response) then
      (.error "Failed to create document: Failed to create document: No response received", reqs)
    else
      match response with
      | .obj kvs =>
        if (kvs.lookup "error").isSome then
          let e := pyStr ((kvs.lookup "error").getD (.str "Unknown error"))
          (.error ("Failed to create document: Failed to create document: " ++ e), reqs)
        else
          match kvs.lookup "document_id" with
          | none =>
            (.error "Failed to create document: Failed to create document: No document ID in response", reqs)
          | some docIdVal =>
            let addResponse := make_request addRemote
            let reqs2 := reqs ++ [⟨"POST", "/collections/" ++ collection_id ++ "/documents/" ++ pyStr docIdVal, []⟩]
            let addBad : Except String Bool :=
              if !(pyTruthy addResponse) then .ok true
              else match pyContains addResponse "error" with
                | .error e => .error e
                | .ok b => .ok b
            match addBad with
            | .error e => (.error ("Failed to create document: " ++ e), reqs2)
            | .ok true =>
              let e :=
                if pyTruthy addResponse then
                  match pyGet addResponse "error" (.str "Unknown error") with
                  | .ok v => pyStr v
                  | .error msg => msg
                else "No response"
              (.error ("Failed to create document: Failed to add document to collection: " ++ e), reqs2)
            | .ok false =>
              (.ok (.obj [("success", .bool true),
                ("data", .obj [("document_id", docIdVal), ("collection_id", .str collection_id)])]), reqs2)
      | _ =>
        (.error "Failed to create document: Failed to create document: Invalid response format", reqs)

/-- A pending tool call from a requires_action run snapshot: correlation id,
function name, and the result of json.loads on the arguments string (`.error`
when the arguments are not valid JSON, in which case json.loads raises). -/
structure ToolCall where
  id : String
  fname : String
  arguments : Except String Json

/-- One entry of the submitted tool_outputs list. -/
structure ToolOutput where
  tool_call_id : String
  output : Json

/-- The function names registered in the dispatch table
(app/domain/openai/tools.py, function_handlers). -/
def function_handlers : List String :=
  ["create_collection", "create_document", "list_user_collections", "search", "rag"]

/-- The for-loop of handle_tool_calls: dispatch each call in order, collecting
one output per call. There is no per-call try/except, so a json.loads failure
or an exception raised by a handler (`.error`) aborts the loop and propagates;
an unknown function name instead appends an error payload output and the loop
continues. -/
def dispatchToolCalls (handler : String → Json → Except String Json) :
    List ToolCall → Except String (List ToolOutput)
  | [] => .ok []
  | c :: rest =>
    match c.arguments with
    | .error e => .error e
    | .ok args =>
      if c.fname ∈ function_handlers then
        match handler c.fname args with
        | .error e => .error e
        | .ok r =>
          match dispatchToolCalls handler rest with
          | .error e => .error e
          | .ok outs => .ok (⟨c.id, r⟩ :: outs)
      else
        match dispatchToolCalls handler rest with
        | .error e => .error e
        | .ok outs =>
          .ok (⟨c.id, .obj [("error", .str ("Unknown function " ++ c.fname))]⟩ :: outs)

/-- Status of one run as returned by runs.list. -/
structure RunSummary where
  status : String

/-- One content part of a thread message (type tag and, for text parts, the
text value). -/
structure ContentPart where
  ptype : String
  text : String

/-- A thread message as returned by messages.list. -/
structure MessageObj where
  id : String
  content : List ContentPart

/-- Oracle for the assistant-service network primitives the run engine calls.
Each field gives the outcome of one remote call: `.error msg` means the call
raised an exception with that message. runStatus, requiredAction and
submitOutputs are indexed by the poll-loop iteration in which the call is
made (at most one call of each kind per iteration). handler gives the result
of invoking a registered tool handler with the parsed arguments. -/
structure Env where
  createThread : Except String String
  listRuns : String → Except String (List RunSummary)
  addMessage : String → String → Except String String
  createRun : String → Except String String
  runStatus : Nat → Except String String
  requiredAction : Nat → Except String (Option (List ToolCall))
  submitOutputs : Nat → Except String Unit
  handler : String → Json → Except String Json
  listMessages : String → Except String (List MessageObj)

/-- One recorded remote call (attempted network side effect) of the engine. -/
inductive Effect where
  | createThread
  | listRuns (thread_id : String)
  | addMessage (thread_id content : String)
  | createRun (thread_id : String)
  | pollStatus (thread_id run_id : String) (k : Nat)
  | retrieveRun (thread_id run_id : String) (k : Nat)
  | submitToolOutputs (thread_id run_id : String) (outputs : List ToolOutput)
  | listMessages (thread_id : String)

/-- Classifier: message-append effects. -/
def Effect.isAddMessage : Effect → Bool
  | .addMessage _ _ => true
  | _ => false

/-- Classifier: run-creation effects. -/
def Effect.isCreateRun : Effect → Bool
  | .createRun _ => true
  | _ => false

/-- Classifier: status-poll effects. -/
def Effect.isPollStatus : Effect → Bool
  | .pollStatus _ _ _ => true
  | _ => false

/-- Classifier: tool-output submission effects. -/
def Effect.isSubmit : Effect → Bool
  | .submitToolOutputs _ _ _ => true
  | _ => false

/-- get_or_create_thread: return the cached thread id for the user if present,
otherwise create a thread remotely and cache its id. An exception from thread
creation is caught and reported as a failure, with no cache write. -/
def get_or_create_thread (threads : List (String × String)) (env : Env)
    (user_id : String) :
    List (String × String) × Except String String × List Effect :=
  match threads.lookup user_id with
  | some tid => (threads, .ok tid, [])
  | none =>
    match env.createThread with
    | .ok tid => ((user_id, tid) :: threads, .ok tid, [.createThread])
    | .error e => (threads, .error e, [.createThread])

/-- has_active_run: fetch the most recent run of the thread (limit 1, desc) and
report whether its status is one of in_progress, queued, requires_action. Any
exception from the listing is caught and yields false. -/
def has_active_run (env : Env) (thread_id : String) : Bool :=
  match env.listRuns thread_id with
  | .error _ => false
  | .ok [] => false
  | .ok (latest :: _) =>
    (["in_progress", "queued", "requires_action"] : List String).contains latest.status

/-- handle_tool_calls: retrieve the run snapshot; if it demands action,
dispatch every pending tool call and submit all outputs in one
submit_tool_outputs call. The whole body is inside one try/except, so a
dispatch exception or a submission exception yields a success=false result
(and run() then gives up); there is no per-call protection. -/
def handle_tool_calls (env : Env) (thread_id run_id : String) (k : Nat) :
    Except String String × List Effect :=
  match env.requiredAction k with
  | .error e => (.error e, [.retrieveRun thread_id run_id k])
  | .ok none => (.ok "no_action_required", [.retrieveRun thread_id run_id k])
  | .ok (some calls) =>
    match dispatchToolCalls env.handler calls with
    | .error e => (.error e, [.retrieveRun thread_id run_id k])
    | .ok outs =>
      match env.submitOutputs k with
      | .error e =>
        (.error e, [.retrieveRun thread_id run_id k, .submitToolOutputs thread_id run_id outs])
      | .ok _ =>
        (.ok "tool_outputs_submitted",
          [.retrieveRun thread_id run_id k, .submitToolOutputs thread_id run_id outs])

/-- The first text content part of the latest message (empty when none). -/
def extract_text : List ContentPart → String
  | [] => ""
  | p :: rest => if p.ptype == "text" then p.text else extract_text rest

/-- get_thread_messages: list the latest message (limit 1, desc) and extract
its text; an empty thread or an exception is reported as a failure. -/
def get_thread_messages (env : Env) (thread_id : String) :
    Except String String × List Effect :=
  match env.listMessages thread_id with
  | .error e => (.error e, [.listMessages thread_id])
  | .ok [] => (.error "No messages found", [.listMessages thread_id])
  | .ok (m :: _) => (.ok (extract_text m.content), [.listMessages thread_id])

/-- The user-visible fields that distinguish run()'s answers: the response id
and the assistant message content (the object/created/usage fields are
constants or timestamps shared by every answer). -/
structure ChatAnswer where
  id : String
  content : String
deriving DecidableEq

/-- The generic failure answer (every internal error path). -/
def errorAnswer : ChatAnswer :=
  ⟨"assistant-error",
   "I'm sorry, I encountered an error processing your request. Please try again later."⟩

/-- The busy answer (an active run already exists on the thread). -/
def busyAnswer : ChatAnswer :=
  ⟨"assistant-busy",
   "I'm still processing your previous request. Please wait a moment before sending another message."⟩

/-- The timeout answer (poll-loop cap reached without a terminal status). -/
def timeoutAnswer : ChatAnswer :=
  ⟨"assistant-error",
   "I'm sorry, your request timed out. Please try again later."⟩

/-- How the poll loop ended. -/
inductive PollOutcome where
  | completed
  | failure
  | timeout
deriving DecidableEq

/-- The poll-loop iteration cap (max_iterations in run()). -/
def max_iterations : Nat := 30

/-- The while-loop of run(): at each iteration fetch the run status; a fetch
exception or a "failed" status ends with failure, "completed" breaks out,
"requires_action" runs handle_tool_calls (whose failure also ends the loop),
and any other status just continues; when the fuel (max_iterations minus the
current iteration) runs out the loop exits and run() returns the timeout
answer. The second component is the trace of remote calls in order. -/
def pollLoop (env : Env) (thread_id run_id : String) :
    Nat → Nat → PollOutcome × List Effect
  | _, 0 => (.timeout, [])
  | iteration, fuel + 1 =>
    match env.runStatus iteration with
    | .error _ => (.failure, [.pollStatus thread_id run_id iteration])
    | .ok status =>
      if status == "completed" then (.completed, [.pollStatus thread_id run_id iteration])
      else if status == "failed" then (.failure, [.pollStatus thread_id run_id iteration])
      else if status == "requires_action" then
        match handle_tool_calls env thread_id run_id iteration with
        | (.error _, tr) => (.failure, .pollStatus thread_id run_id iteration :: tr)
        | (.ok _, tr) =>
          let next := pollLoop env thread_id run_id (iteration + 1) fuel
          (next.1, .pollStatus thread_id run_id iteration :: (tr ++ next.2))
      else
        let next := pollLoop env thread_id run_id (iteration + 1) fuel
        (next.1, .pollStatus thread_id run_id iteration :: next.2)

/-- run(user_message, user_id): resolve the thread, reject with the busy answer
when the latest run is still active, otherwise append the message, start a
run, poll it to an outcome, and on completion fetch the latest assistant
message. Every failure path yields the generic error answer; loop exhaustion
yields the timeout answer. Returns the updated user→thread cache, the answer,
and the trace of remote calls. -/
def run (threads : List (String × String)) (env : Env)
    (user_message user_id : String) :
    List (String × String) × ChatAnswer × List Effect :=
  match get_or_create_thread threads env user_id with
  | (threads1, .error _, tr0) => (threads1, errorAnswer, tr0)
  | (threads1, .ok thread_id, tr0) =>
    if has_active_run env thread_id then
      (threads1, busyAnswer, tr0 ++ [.listRuns thread_id])
    else
      match env.addMessage thread_id user_message with
      | .error _ =>
        (threads1, errorAnswer,
          tr0 ++ [.listRuns thread_id, .addMessage thread_id user_message])
      | .ok _ =>
        match env.createRun thread_id with
        | .error _ =>
          (threads1, errorAnswer,
            tr0 ++ [.listRuns thread_id, .addMessage thread_id user_message,
              .createRun thread_id])
        | .ok run_id =>
          let polled := pollLoop env thread_id run_id 0 max_iterations
          let base := tr0 ++ [.listRuns thread_id, .addMessage thread_id user_message,
            .createRun thread_id] ++ polled.2
          match polled.1 with
          | .failure => (threads1, errorAnswer, base)
          | .timeout => (threads1, timeoutAnswer, base)
          | .completed =>
            match get_thread_messages env thread_id with
            | (.error _, tr2) => (threads1, errorAnswer, base ++ tr2)
            | (.ok content, tr2) =>
              (threads1, ⟨"assistant-" ++ thread_id, content⟩, base ++ tr2)

/-- The error shape always satisfies the recognizer. -/
theorem isErrShape_errShape (e : Json) : isErrShape (errShape e) = true := rfl

/-- C6: every Retrieval Client request returns a tagged result and never raises
for expected remote failures — a transport-level exception is converted to the
error shape carrying its message, every response with HTTP status >= 400
yields the error shape, and a response body that is not valid JSON yields the
error shape (make_request is a total function into Json: no exception escapes
it). -/
theorem c6_make_request_never_raises (status : Nat) (text : String)
    (parsed : Option Json) (e : String) :
    make_request (.exn e) = errShape (.str e) ∧
    (400 ≤ status → isErrShape (make_request (.response status text parsed)) = true) ∧
    isErrShape (make_request (.response status text none)) = true := by
  refine ⟨rfl, ?_, ?_⟩
  · intro h
    have hnl : ¬ status < 400 := not_lt.mpr h
    cases parsed with
    | none =>
      simp only [make_request]
      split <;> exact isErrShape_errShape _
    | some data =>
      simp only [make_request, if_neg hnl]
      cases data <;> simp [pyGet, isErrShape_errShape]
  · simp only [make_request]
    split <;> exact isErrShape_errShape _

/-- Witness for C6 at concrete inputs: a transport exception, a 500 response
with a JSON error body, and a 200 response with an unparsable body. -/
theorem c6_witness :
    make_request (.exn "connection refused") = errShape (.str "connection refused") ∧
    isErrShape (make_request (.response 500 "oops" (some (.obj [("message", .str "bad")])))) = true ∧
    isErrShape (make_request (.response 200 "notjson" none)) = true :=
  ⟨(c6_make_request_never_raises 500 "oops" none "connection refused").1,
   (c6_make_request_never_raises 500 "oops" (some (.obj [("message", .str "bad")])) "x").2.1
     (by norm_num),
   (c6_make_request_never_raises 200 "notjson" none "x").2.2⟩

/-- C9: for every caller-supplied limit, the collections listing sends
min(limit, 1000) as the limit query parameter, and a requested limit of 5000
is sent as exactly 1000. -/
theorem c9_collections_limit_clamped (offset limit : Int) (remote : RemoteOutcome) :
    (collections offset limit remote).1.params =
      [("offset", offset), ("limit", min limit 1000)] ∧
    (collections offset 5000 remote).1.params.lookup "limit" = some 1000 :=
  ⟨rfl, rfl⟩

/-- C7: the create_document handler registered in the dispatch table (imported
into tools.py from documents.py) performs no validation at all — for every
input, blank or not, it fails by wrapping the TypeError from calling the
one-parameter client method with two positional arguments, and it performs
zero network requests. The claimed behavior (a descriptive validation error
for blank text, before any network call) is implemented by the repository's
other variant, handlers.py's handle_create_document, which the dispatch table
does not import: on empty or whitespace-only text it fails with the
"Document content cannot be empty" validation error and zero requests. -/
theorem c7_create_document_blank_text (content : String) (metadata : Option Json)
    (remote createRemote addRemote : RemoteOutcome) (cid : String) :
    handle_create_document content metadata remote =
      (.error ("Error creating document: " ++ create_document_arity_error), []) ∧
    handle_create_document_validated "" cid createRemote addRemote =
      (.error "Failed to create document: Document content cannot be empty", []) ∧
    handle_create_document_validated "   " cid createRemote addRemote =
      (.error "Failed to create document: Document content cannot be empty", []) :=
  ⟨rfl, rfl, rfl⟩

/-- When every call's arguments parse and every registered handler returns
normally, the dispatch loop returns one output per call, in order, keyed by
the calls' correlation ids, with unknown names serialized as error payloads. -/
theorem dispatchToolCalls_ok (handler : String → Json → Except String Json)
    (calls : List ToolCall)
    (hargs : ∀ c ∈ calls, ∃ a, c.arguments = .ok a)
    (hok : ∀ c ∈ calls, ∀ a, c.arguments = .ok a → c.fname ∈ function_handlers →
      ∃ r, handler c.fname a = .ok r) :
    ∃ outs, dispatchToolCalls handler calls = .ok outs ∧
      outs.map ToolOutput.tool_call_id = calls.map ToolCall.id ∧
      ∀ c ∈ calls, c.fname ∉ function_handlers →
        (⟨c.id, .obj [("error", .str ("Unknown function " ++ c.fname))]⟩ : ToolOutput) ∈ outs := by
  induction calls with
  | nil => exact ⟨[], rfl, rfl, by simp⟩
  | cons c rest ih =>
    obtain ⟨a, ha⟩ := hargs c (by simp)
    obtain ⟨outs, houts, hids, hunk⟩ :=
      ih (fun x hx => hargs x (by simp [hx]))
        (fun x hx => hok x (by simp [hx]))
    by_cases hmem : c.fname ∈ function_handlers
    · obtain ⟨r, hr⟩ := hok c (by simp) a ha hmem
      refine ⟨⟨c.id, r⟩ :: outs, ?_, ?_, ?_⟩
      · simp [dispatchToolCalls, ha, hmem, hr, houts]
      · simp [hids]
      · intro x hx hxunk
        rcases List.mem_cons.mp hx with hx | hx
        · exact absurd hmem (hx ▸ hxunk)
        · exact List.mem_cons_of_mem _ (hunk x hx hxunk)
    · refine ⟨⟨c.id, .obj [("error", .str ("Unknown function " ++ c.fname))]⟩ :: outs, ?_, ?_, ?_⟩
      · simp [dispatchToolCalls, ha, hmem, houts]
      · simp [hids]
      · intro x hx hxunk
        rcases List.mem_cons.mp hx with hx | hx
        · subst hx; exact List.mem_cons_self _ _
        · exact List.mem_cons_of_mem _ (hunk x hx hxunk)

/-- Loop step: a status-fetch that reports "failed" ends the loop with failure
immediately. -/
theorem pollLoop_status_failed (env : Env) (t r : String) (iteration fuel : Nat)
    (h : env.runStatus iteration = .ok "failed") :
    pollLoop env t r iteration (fuel + 1) = (.failure, [.pollStatus t r iteration]) := by
  simp [pollLoop, h]

/-- Loop step: a transient status (anything other than completed, failed,
requires_action) just polls once more and continues at the next iteration. -/
theorem pollLoop_step_transient (env : Env) (t r s : String) (iteration fuel : Nat)
    (h : env.runStatus iteration = .ok s)
    (h1 : (s == "completed") = false) (h2 : (s == "failed") = false)
    (h3 : (s == "requires_action") = false) :
    pollLoop env t r iteration (fuel + 1) =
      ((pollLoop env t r (iteration + 1) fuel).1,
        .pollStatus t r iteration :: (pollLoop env t r (iteration + 1) fuel).2) := by
  simp [pollLoop, h, h1, h2, h3]

/-- A permanently transient status exhausts the fuel: the loop times out after
exactly one status poll per fuel unit. -/
theorem pollLoop_const_transient (env : Env) (t r s : String)
    (h1 : (s == "completed") = false) (h2 : (s == "failed") = false)
    (h3 : (s == "requires_action") = false)
    (hs : ∀ k, env.runStatus k = .ok s) :
    ∀ fuel iteration,
      (pollLoop env t r iteration fuel).1 = .timeout ∧
      (pollLoop env t r iteration fuel).2.countP Effect.isPollStatus = fuel := by
  intro fuel
  induction fuel with
  | zero => intro iteration; exact ⟨rfl, rfl⟩
  | succ n ih =>
    intro iteration
    rw [pollLoop_step_transient env t r s iteration n (hs iteration) h1 h2 h3]
    refine ⟨(ih (iteration + 1)).1, ?_⟩
    simp [List.countP_cons, Effect.isPollStatus, (ih (iteration + 1)).2]

/-- If the first j status polls are transient and the j-th poll (within the
fuel budget) reports "failed", the loop ends with failure. -/
theorem pollLoop_first_failed (env : Env) (t r : String) :
    ∀ fuel iteration j, j < fuel →
      (∀ k, k < j → ∃ s, env.runStatus (iteration + k) = .ok s ∧
        (s == "completed") = false ∧ (s == "failed") = false ∧
        (s == "requires_action") = false) →
      env.runStatus (iteration + j) = .ok "failed" →
      (pollLoop env t r iteration fuel).1 = .failure := by
  intro fuel
  induction fuel with
  | zero => intro iteration j hj; omega
  | succ n ih =>
    intro iteration j hj hpre hfail
    cases j with
    | zero =>
      rw [pollLoop_status_failed env t r iteration n (by simpa using hfail)]
    | succ m =>
      obtain ⟨s, hs, h1, h2, h3⟩ := hpre 0 (Nat.succ_pos m)
      rw [pollLoop_step_transient env t r s iteration n (by simpa using hs) h1 h2 h3]
      exact ih (iteration + 1) m (by omega)
        (fun k hk => by
          obtain ⟨s2, hs2, g1, g2, g3⟩ := hpre (k + 1) (by omega)
          exact ⟨s2, by rw [show iteration + 1 + k = iteration + (k + 1) by omega]; exact hs2,
            g1, g2, g3⟩)
        (by rw [show iteration + 1 + m = iteration + (m + 1) by omega]; exact hfail)

/-- handle_tool_calls never appends user messages: its trace holds only the
snapshot retrieval and (possibly) the output submission. -/
theorem handle_tool_calls_no_addMessage (env : Env) (t r : String) (k : Nat) :
    (handle_tool_calls env t r k).2.countP Effect.isAddMessage = 0 := by
  unfold handle_tool_calls
  cases hra : env.requiredAction k with
  | error e => rfl
  | ok oc =>
    cases oc with
    | none => rfl
    | some calls =>
      cases hd : dispatchToolCalls env.handler calls with
      | error e2 => simp [hd, Effect.isAddMessage]
      | ok outs =>
        cases hsm : env.submitOutputs k <;> simp [hd, hsm, Effect.isAddMessage]

/-- The poll loop never appends user messages or starts runs: its trace is
status polls, snapshot retrievals and output submissions only. -/
theorem pollLoop_no_addMessage (env : Env) (t r : String) :
    ∀ fuel iteration,
      (pollLoop env t r iteration fuel).2.countP Effect.isAddMessage = 0 := by
  intro fuel
  induction fuel with
  | zero => intro iteration; rfl
  | succ n ih =>
    intro iteration
    simp only [pollLoop]
    cases h : env.runStatus iteration with
    | error e => simp [Effect.isAddMessage]
    | ok status =>
      by_cases hc : (status == "completed") = true
      · simp [hc, Effect.isAddMessage]
      · by_cases hf : (status == "failed") = true
        · simp [hc, hf, Effect.isAddMessage]
        · by_cases hr : (status == "requires_action") = true
          · simp only [hc, hf, hr, if_true, if_false, Bool.false_eq_true]
            cases htc : handle_tool_calls env t r iteration with
            | mk res tr =>
              have htr : tr.countP Effect.isAddMessage = 0 := by
                have := handle_tool_calls_no_addMessage env t r iteration
                rw [htc] at this
                exact this
              cases res with
              | error e => simp [Effect.isAddMessage, htr]
              | ok s => simp [Effect.isAddMessage, htr, ih (iteration + 1)]
          · simp [hc, hf, hr, Effect.isAddMessage, ih (iteration + 1)]

/-- get_thread_messages performs exactly one listing call. -/
theorem get_thread_messages_trace (env : Env) (tid : String) :
    (get_thread_messages env tid).2 = [.listMessages tid] := by
  unfold get_thread_messages
  cases h : env.listMessages tid with
  | error e => rfl
  | ok ms => cases ms <;> rfl

/-- run() only touches the user→thread cache through get_or_create_thread:
the cache it returns is the one thread resolution produced, on every path. -/
theorem run_state_eq (threads : List (String × String)) (env : Env)
    (msg uid : String) :
    (run threads env msg uid).1 = (get_or_create_thread threads env uid).1 := by
  unfold run
  cases hgc : get_or_create_thread threads env uid with
  | mk t1 p =>
    cases p with
    | mk res tr0 =>
      cases res with
      | error e => rfl
      | ok tid =>
        dsimp only
        cases hb : has_active_run env tid with
        | true => rfl
        | false =>
          cases ham : env.addMessage tid msg with
          | error e => rfl
          | ok mid =>
            cases hcr : env.createRun tid with
            | error e => rfl
            | ok rid =>
              dsimp only
              cases (pollLoop env tid rid 0 max_iterations).1 with
              | failure => rfl
              | timeout => rfl
              | completed =>
                cases hm : get_thread_messages env tid with
                | mk mres mtr => cases mres <;> rfl

/-- C1: when the thread resolved for the user has a most recent run whose
status is queued, in_progress or requires_action, run() returns the busy
answer and mutates nothing on the thread: no message append, no run creation,
no tool submission, and no status poll occur. -/
theorem c1_active_run_busy (threads : List (String × String)) (env : Env)
    (user_message user_id thread_id st : String) (rest : List RunSummary)
    (hres : threads.lookup user_id = some thread_id ∨
      (threads.lookup user_id = none ∧ env.createThread = .ok thread_id))
    (hruns : env.listRuns thread_id = .ok (⟨st⟩ :: rest))
    (hst : st = "queued" ∨ st = "in_progress" ∨ st = "requires_action") :
    (run threads env user_message user_id).2.1 = busyAnswer ∧
    (run threads env user_message user_id).2.2.countP Effect.isAddMessage = 0 ∧
    (run threads env user_message user_id).2.2.countP Effect.isCreateRun = 0 ∧
    (run threads env user_message user_id).2.2.countP Effect.isSubmit = 0 ∧
    (run threads env user_message user_id).2.2.countP Effect.isPollStatus = 0 := by
  have hact : has_active_run env thread_id = true := by
    unfold has_active_run
    rw [hruns]
    rcases hst with h | h | h <;> subst h <;> rfl
  have hg : ∃ t1 tr0, get_or_create_thread threads env user_id =
      (t1, .ok thread_id, tr0) ∧ (tr0 = [] ∨ tr0 = [.createThread]) := by
    rcases hres with h | ⟨h1, h2⟩
    · exact ⟨threads, [], by simp [get_or_create_thread, h], .inl rfl⟩
    · exact ⟨(user_id, thread_id) :: threads, [.createThread],
        by simp [get_or_create_thread, h1, h2], .inr rfl⟩
  obtain ⟨t1, tr0, hg, htr0⟩ := hg
  unfold run
  rw [hg]
  dsimp only
  rw [hact]
  rcases htr0 with h | h <;> subst h <;>
    simp [Effect.isAddMessage, Effect.isCreateRun, Effect.isSubmit, Effect.isPollStatus]

/-- Concrete environment for the C1 witness: the latest run of the thread is
in progress. -/
def envC1 : Env :=
  { createThread := .ok "thread_1"
    listRuns := fun _ => .ok [⟨"in_progress"⟩]
    addMessage := fun _ _ => .ok "msg_1"
    createRun := fun _ => .ok "run_1"
    runStatus := fun _ => .ok "completed"
    requiredAction := fun _ => .ok none
    submitOutputs := fun _ => .ok ()
    handler := fun _ _ => .ok .null
    listMessages := fun _ => .ok [] }

/-- Witness for C1: a user with no cached thread, whose freshly resolved
thread reports an in-progress latest run, gets the busy answer and no
mutation. -/
theorem c1_witness :
    (run [] envC1 "hello" "user_1").2.1 = busyAnswer ∧
    (run [] envC1 "hello" "user_1").2.2.countP Effect.isAddMessage = 0 ∧
    (run [] envC1 "hello" "user_1").2.2.countP Effect.isCreateRun = 0 ∧
    (run [] envC1 "hello" "user_1").2.2.countP Effect.isSubmit = 0 ∧
    (run [] envC1 "hello" "user_1").2.2.countP Effect.isPollStatus = 0 :=
  c1_active_run_busy [] envC1 "hello" "user_1" "thread_1" "in_progress" []
    (.inr ⟨rfl, rfl⟩) rfl (.inr (.inl rfl))

/-- After successful setup (thread resolved, no active run, message appended,
run started), run()'s answer is determined by the poll outcome, and its trace
is the setup effects followed by the poll-loop trace, plus at most a final
message listing. -/
theorem run_after_setup (threads : List (String × String)) (env : Env)
    (msg uid tid mid rid : String)
    (hres : threads.lookup uid = some tid ∨
      (threads.lookup uid = none ∧ env.createThread = .ok tid))
    (hactive : has_active_run env tid = false)
    (hadd : env.addMessage tid msg = .ok mid)
    (hcr : env.createRun tid = .ok rid) :
    ∃ tr0 extra,
      (tr0 = ([] : List Effect) ∨ tr0 = [.createThread]) ∧
      (extra = ([] : List Effect) ∨ extra = [.listMessages tid]) ∧
      (run threads env msg uid).2.2 =
        tr0 ++ [.listRuns tid, .addMessage tid msg, .createRun tid] ++
          (pollLoop env tid rid 0 max_iterations).2 ++ extra ∧
      ((pollLoop env tid rid 0 max_iterations).1 = .failure →
        (run threads env msg uid).2.1 = errorAnswer) ∧
      ((pollLoop env tid rid 0 max_iterations).1 = .timeout →
        (run threads env msg uid).2.1 = timeoutAnswer) := by
  have hg : ∃ t1 tr0, get_or_create_thread threads env uid =
      (t1, .ok tid, tr0) ∧ (tr0 = ([] : List Effect) ∨ tr0 = [.createThread]) := by
    rcases hres with h | ⟨h1, h2⟩
    · exact ⟨threads, [], by simp [get_or_create_thread, h], .inl rfl⟩
    · exact ⟨(uid, tid) :: threads, [.createThread],
        by simp [get_or_create_thread, h1, h2], .inr rfl⟩
  obtain ⟨t1, tr0, hg, htr0⟩ := hg
  unfold run
  rw [hg]
  dsimp only
  rw [if_neg (show ¬(has_active_run env tid = true) by simp [hactive])]
  rw [hadd]
  dsimp only
  rw [hcr]
  dsimp only
  cases hpoll : (pollLoop env tid rid 0 max_iterations).1 with
  | failure =>
    exact ⟨tr0, [], htr0, .inl rfl, by simp, fun _ => rfl,
      fun h => PollOutcome.noConfusion h⟩
  | timeout =>
    exact ⟨tr0, [], htr0, .inl rfl, by simp, fun h => PollOutcome.noConfusion h,
      fun _ => rfl⟩
  | completed =>
    cases hm : get_thread_messages env tid with
    | mk mres mtr =>
      have hmtr : mtr = [.listMessages tid] := by
        have := get_thread_messages_trace env tid
        rw [hm] at this
        exact this
      subst hmtr
      cases mres with
      | error e =>
        exact ⟨tr0, [.listMessages tid], htr0, .inr rfl, by simp,
          fun h => PollOutcome.noConfusion h, fun h => PollOutcome.noConfusion h⟩
      | ok content =>
        exact ⟨tr0, [.listMessages tid], htr0, .inr rfl, by simp,
          fun h => PollOutcome.noConfusion h, fun h => PollOutcome.noConfusion h⟩

/-- The poll loop depends on the environment only through runStatus,
requiredAction, submitOutputs and handler. -/
theorem pollLoop_congr (env env2 : Env)
    (hs : env2.runStatus = env.runStatus)
    (hr : env2.requiredAction = env.requiredAction)
    (hsub : env2.submitOutputs = env.submitOutputs)
    (hh : env2.handler = env.handler) :
    ∀ fuel iteration t r,
      pollLoop env2 t r iteration fuel = pollLoop env t r iteration fuel := by
  intro fuel
  induction fuel with
  | zero => intro iteration t r; rfl
  | succ n ih =>
    intro iteration t r
    simp only [pollLoop, handle_tool_calls, hs, hr, hsub, hh, ih]

/-- C2: if every status poll reports the non-terminal in_progress status, the
poll loop performs exactly max_iterations = 30 status polls and run() returns
the timeout answer, which differs from the generic error answer and the busy
answer. -/
theorem c2_poll_cap_timeout (threads : List (String × String)) (env : Env)
    (msg uid tid mid rid : String)
    (hres : threads.lookup uid = some tid ∨
      (threads.lookup uid = none ∧ env.createThread = .ok tid))
    (hactive : has_active_run env tid = false)
    (hadd : env.addMessage tid msg = .ok mid)
    (hcr : env.createRun tid = .ok rid)
    (hstatus : ∀ k, env.runStatus k = .ok "in_progress") :
    (run threads env msg uid).2.1 = timeoutAnswer ∧
    (run threads env msg uid).2.2.countP Effect.isPollStatus = max_iterations ∧
    max_iterations = 30 ∧
    timeoutAnswer ≠ errorAnswer ∧ timeoutAnswer ≠ busyAnswer := by
  have hloop := pollLoop_const_transient env tid rid "in_progress" rfl rfl rfl hstatus
    max_iterations 0
  obtain ⟨tr0, extra, htr0, hextra, htrace, hfail, htime⟩ :=
    run_after_setup threads env msg uid tid mid rid hres hactive hadd hcr
  refine ⟨htime hloop.1, ?_, rfl, by simp [timeoutAnswer, errorAnswer],
    by simp [timeoutAnswer, busyAnswer]⟩
  rw [htrace]
  simp only [List.countP_append, hloop.2]
  rcases htr0 with h | h <;> rcases hextra with h2 | h2 <;> subst h <;> subst h2 <;>
    simp [Effect.isPollStatus]

/-- Concrete environment for the C2 witness: every poll reports in_progress. -/
def envC2 : Env :=
  { createThread := .ok "thread_2"
    listRuns := fun _ => .ok []
    addMessage := fun _ _ => .ok "msg_2"
    createRun := fun _ => .ok "run_2"
    runStatus := fun _ => .ok "in_progress"
    requiredAction := fun _ => .ok none
    submitOutputs := fun _ => .ok ()
    handler := fun _ _ => .ok .null
    listMessages := fun _ => .ok [] }

/-- Witness for C2 at a concrete environment that never leaves in_progress. -/
theorem c2_witness :
    (run [] envC2 "hello" "user_2").2.1 = timeoutAnswer ∧
    (run [] envC2 "hello" "user_2").2.2.countP Effect.isPollStatus = max_iterations ∧
    max_iterations = 30 ∧
    timeoutAnswer ≠ errorAnswer ∧ timeoutAnswer ≠ busyAnswer :=
  c2_poll_cap_timeout [] envC2 "hello" "user_2" "thread_2" "msg_2" "run_2"
    (.inr ⟨rfl, rfl⟩) rfl rfl rfl (fun _ => rfl)

/-- Concrete environment in which every status poll reports "cancelled". -/
def envC5cancel : Env :=
  { createThread := .ok "thread_5"
    listRuns := fun _ => .ok []
    addMessage := fun _ _ => .ok "msg_5"
    createRun := fun _ => .ok "run_5"
    runStatus := fun _ => .ok "cancelled"
    requiredAction := fun _ => .ok none
    submitOutputs := fun _ => .ok ()
    handler := fun _ _ => .ok .null
    listMessages := fun _ => .ok [] }

/-- Counterexample to C5: a run whose every status poll reports the terminal
failure status "cancelled" does NOT make run() return the generic failure
answer — the loop keeps polling (30 polls) and run() returns the timeout
answer, which differs from the generic failure answer. -/
theorem c5_counterexample :
    (run [] envC5cancel "hi" "user_5").2.1 = timeoutAnswer ∧
    timeoutAnswer ≠ errorAnswer ∧
    (run [] envC5cancel "hi" "user_5").2.2.countP Effect.isPollStatus = 30 := by
  obtain ⟨tr0, extra, htr0, hextra, htrace, hfail, htime⟩ :=
    run_after_setup [] envC5cancel "hi" "user_5" "thread_5" "msg_5" "run_5"
      (.inr ⟨rfl, rfl⟩) rfl rfl rfl
  have hloop := pollLoop_const_transient envC5cancel "thread_5" "run_5" "cancelled"
    rfl rfl rfl (fun _ => rfl) max_iterations 0
  refine ⟨htime hloop.1, by simp [timeoutAnswer, errorAnswer], ?_⟩
  rw [htrace]
  simp only [List.countP_append, hloop.2]
  rcases htr0 with h | h <;> rcases hextra with h2 | h2 <;> subst h <;> subst h2 <;>
    simp [Effect.isPollStatus, max_iterations]

/-- C5 (amended): only the "failed" status is treated as a terminal failure by
run()'s poll loop — a poll observing "failed" (after transient polls) makes
run() return the generic failure answer, while "cancelled" and "expired" fall
through to the transient branch, so a run that stays cancelled or expired
keeps being polled and run() returns the timeout answer instead. -/
theorem c5_failed_only_terminal (threads : List (String × String)) (env : Env)
    (msg uid tid mid rid : String)
    (hres : threads.lookup uid = some tid ∨
      (threads.lookup uid = none ∧ env.createThread = .ok tid))
    (hactive : has_active_run env tid = false)
    (hadd : env.addMessage tid msg = .ok mid)
    (hcr : env.createRun tid = .ok rid) :
    (∀ j, j < max_iterations →
      (∀ k, k < j → ∃ s, env.runStatus k = .ok s ∧ (s == "completed") = false ∧
        (s == "failed") = false ∧ (s == "requires_action") = false) →
      env.runStatus j = .ok "failed" →
      (run threads env msg uid).2.1 = errorAnswer) ∧
    (∀ s, (s = "cancelled" ∨ s = "expired") → (∀ k, env.runStatus k = .ok s) →
      (run threads env msg uid).2.1 = timeoutAnswer) := by
  obtain ⟨tr0, extra, htr0, hextra, htrace, hfail, htime⟩ :=
    run_after_setup threads env msg uid tid mid rid hres hactive hadd hcr
  constructor
  · intro j hj hpre hjf
    refine hfail (pollLoop_first_failed env tid rid max_iterations 0 j hj ?_ ?_)
    · intro k hk
      obtain ⟨s, hs, a, b, c⟩ := hpre k hk
      exact ⟨s, by simpa using hs, a, b, c⟩
    · simpa using hjf
  · intro s hs hconst
    have h1 : (s == "completed") = false := by rcases hs with h | h <;> subst h <;> rfl
    have h2 : (s == "failed") = false := by rcases hs with h | h <;> subst h <;> rfl
    have h3 : (s == "requires_action") = false := by
      rcases hs with h | h <;> subst h <;> rfl
    exact htime (pollLoop_const_transient env tid rid s h1 h2 h3 hconst max_iterations 0).1

/-- Concrete environment whose very first status poll reports "failed". -/
def envC5failed : Env :=
  { createThread := .ok "thread_5f"
    listRuns := fun _ => .ok []
    addMessage := fun _ _ => .ok "msg_5f"
    createRun := fun _ => .ok "run_5f"
    runStatus := fun _ => .ok "failed"
    requiredAction := fun _ => .ok none
    submitOutputs := fun _ => .ok ()
    handler := fun _ _ => .ok .null
    listMessages := fun _ => .ok [] }

/-- Witness for the amended C5: a failed poll yields the generic failure
answer, a permanently cancelled run yields the timeout answer. -/
theorem c5_witness :
    (run [] envC5failed "hi" "user_5f").2.1 = errorAnswer ∧
    (run [] envC5cancel "hi" "user_5").2.1 = timeoutAnswer := by
  constructor
  · exact (c5_failed_only_terminal [] envC5failed "hi" "user_5f" "thread_5f" "msg_5f"
      "run_5f" (.inr ⟨rfl, rfl⟩) rfl rfl rfl).1 0 (by decide)
      (fun k hk => absurd hk (Nat.not_lt_zero k)) rfl
  · exact (c5_failed_only_terminal [] envC5cancel "hi" "user_5" "thread_5" "msg_5"
      "run_5" (.inr ⟨rfl, rfl⟩) rfl rfl rfl).2 "cancelled" (.inl rfl) (fun _ => rfl)

/-- C10: the busy check fails open — when listing the thread's runs raises,
has_active_run returns false, and run() behaves exactly as it would against an
environment with no runs at all: it proceeds past the busy check and attempts
the message append (exactly one append attempt occurs on every such path). -/
theorem c10_busy_check_fails_open (threads : List (String × String)) (env : Env)
    (msg uid tid e : String)
    (hres : threads.lookup uid = some tid ∨
      (threads.lookup uid = none ∧ env.createThread = .ok tid))
    (herr : env.listRuns tid = .error e) :
    has_active_run env tid = false ∧
    run threads env msg uid = run threads { env with listRuns := fun _ => .ok [] } msg uid ∧
    (run threads env msg uid).2.2.countP Effect.isAddMessage = 1 := by
  have h1 : has_active_run env tid = false := by simp [has_active_run, herr]
  have hg : ∃ t1 tr0, get_or_create_thread threads env uid =
      (t1, .ok tid, tr0) ∧ (tr0 = ([] : List Effect) ∨ tr0 = [.createThread]) := by
    rcases hres with h | ⟨ha, hb⟩
    · exact ⟨threads, [], by simp [get_or_create_thread, h], .inl rfl⟩
    · exact ⟨(uid, tid) :: threads, [.createThread],
        by simp [get_or_create_thread, ha, hb], .inr rfl⟩
  obtain ⟨t1, tr0, hg, htr0⟩ := hg
  refine ⟨h1, ?_, ?_⟩
  · have hg2 : get_or_create_thread threads { env with listRuns := fun _ => .ok [] } uid =
        (t1, .ok tid, tr0) := hg
    have h2 : has_active_run { env with listRuns := fun _ => .ok [] } tid = false := rfl
    have hp := pollLoop_congr env { env with listRuns := fun _ => .ok [] } rfl rfl rfl rfl
    have hm : ∀ t, get_thread_messages { env with listRuns := fun _ => .ok [] } t =
        get_thread_messages env t := fun t => rfl
    unfold run
    rw [hg, hg2]
    dsimp only
    rw [if_neg (show ¬(has_active_run env tid = true) by simp [h1]),
      if_neg (show ¬(has_active_run { env with listRuns := fun _ => .ok [] } tid = true) by
        simp [h2])]
    simp only [hp, hm]
  · unfold run
    rw [hg]
    dsimp only
    rw [if_neg (show ¬(has_active_run env tid = true) by simp [h1])]
    cases ham : env.addMessage tid msg with
    | error e2 =>
      rcases htr0 with h | h <;> subst h <;> simp [Effect.isAddMessage]
    | ok mid =>
      cases hcr : env.createRun tid with
      | error e2 =>
        rcases htr0 with h | h <;> subst h <;> simp [Effect.isAddMessage]
      | ok rid =>
        dsimp only
        cases hpoll : (pollLoop env tid rid 0 max_iterations).1 with
        | failure =>
          rcases htr0 with h | h <;> subst h <;>
            simp [List.countP_append, Effect.isAddMessage, pollLoop_no_addMessage]
        | timeout =>
          rcases htr0 with h | h <;> subst h <;>
            simp [List.countP_append, Effect.isAddMessage, pollLoop_no_addMessage]
        | completed =>
          cases hmsg : get_thread_messages env tid with
          | mk mres mtr =>
            have hmtr : mtr = [.listMessages tid] := by
              have := get_thread_messages_trace env tid
              rw [hmsg] at this
              exact this
            subst hmtr
            cases mres with
            | error e3 =>
              rcases htr0 with h | h <;> subst h <;>
                simp [List.countP_append, Effect.isAddMessage, pollLoop_no_addMessage]
            | ok content =>
              rcases htr0 with h | h <;> subst h <;>
                simp [List.countP_append, Effect.isAddMessage, pollLoop_no_addMessage]

/-- Concrete environment for the C10 witness: listing runs raises. -/
def envC10 : Env :=
  { createThread := .ok "thread_10"
    listRuns := fun _ => .error "connection refused"
    addMessage := fun _ _ => .ok "msg_10"
    createRun := fun _ => .ok "run_10"
    runStatus := fun _ => .ok "completed"
    requiredAction := fun _ => .ok none
    submitOutputs := fun _ => .ok ()
    handler := fun _ _ => .ok .null
    listMessages := fun _ => .ok [⟨"m1", [⟨"text", "answer"⟩]⟩] }

/-- Witness for C10 at a concrete environment whose run listing raises. -/
theorem c10_witness :
    has_active_run envC10 "thread_10" = false ∧
    run [] envC10 "hi" "user_10" =
      run [] { envC10 with listRuns := fun _ => .ok [] } "hi" "user_10" ∧
    (run [] envC10 "hi" "user_10").2.2.countP Effect.isAddMessage = 1 :=
  c10_busy_check_fails_open [] envC10 "hi" "user_10" "thread_10" "connection refused"
    (.inr ⟨rfl, rfl⟩) rfl

/-- C8: thread resolution is idempotent and cache entries are never
overwritten — a successful resolution leaves the returned id cached for the
user; resolving again (under any environment) returns the same id; and an
existing user→thread binding survives every later resolution (for any user)
and every later run() call. -/
theorem c8_thread_resolution_idempotent (threads : List (String × String))
    (env1 env2 env : Env) (uid uid2 tid msg : String) :
    ((get_or_create_thread threads env1 uid).2.1 = .ok tid →
      ((get_or_create_thread threads env1 uid).1.lookup uid = some tid ∧
        (get_or_create_thread (get_or_create_thread threads env1 uid).1 env2 uid).2.1 =
          .ok tid)) ∧
    (threads.lookup uid = some tid →
      ((get_or_create_thread threads env uid2).1.lookup uid = some tid ∧
        (run threads env msg uid2).1.lookup uid = some tid)) := by
  constructor
  · intro h
    cases hl : threads.lookup uid with
    | some t0 =>
      have heq : get_or_create_thread threads env1 uid = (threads, .ok t0, []) := by
        simp [get_or_create_thread, hl]
      rw [heq] at h ⊢
      injection h with h
      subst h
      exact ⟨hl, by simp [get_or_create_thread, hl]⟩
    | none =>
      cases hc : env1.createThread with
      | error e => simp [get_or_create_thread, hl, hc] at h
      | ok t0 =>
        have heq : get_or_create_thread threads env1 uid =
            ((uid, t0) :: threads, .ok t0, [.createThread]) := by
          simp [get_or_create_thread, hl, hc]
        rw [heq] at h ⊢
        injection h with h
        subst h
        exact ⟨by simp [List.lookup], by simp [get_or_create_thread, List.lookup]⟩
  · intro h
    have hpres : ∀ envx : Env, (get_or_create_thread threads envx uid2).1.lookup uid =
        some tid := by
      intro envx
      cases hl2 : threads.lookup uid2 with
      | some t0 => simp [get_or_create_thread, hl2, h]
      | none =>
        cases hc2 : envx.createThread with
        | error e => simp [get_or_create_thread, hl2, hc2, h]
        | ok t0 =>
          have hne : (uid == uid2) = false := by
            refine beq_eq_false_iff_ne.mpr fun hEq => ?_
            rw [hEq, hl2] at h
            exact Option.noConfusion h
          simp [get_or_create_thread, hl2, hc2, List.lookup, hne, h]
    exact ⟨hpres env, by rw [run_state_eq]; exact hpres env⟩

/-- Environment for the C8 witness: thread creation yields thread_8. -/
def envC8 : Env :=
  { createThread := .ok "thread_8"
    listRuns := fun _ => .ok []
    addMessage := fun _ _ => .ok "msg_8"
    createRun := fun _ => .ok "run_8"
    runStatus := fun _ => .ok "completed"
    requiredAction := fun _ => .ok none
    submitOutputs := fun _ => .ok ()
    handler := fun _ _ => .ok .null
    listMessages := fun _ => .ok [⟨"m8", [⟨"text", "done"⟩]⟩] }

/-- Second environment for the C8 witness: a later thread creation would yield
a different id, which must not replace the cached one. -/
def envC8b : Env :=
  { createThread := .ok "thread_other"
    listRuns := fun _ => .ok []
    addMessage := fun _ _ => .ok "msg_8b"
    createRun := fun _ => .ok "run_8b"
    runStatus := fun _ => .ok "completed"
    requiredAction := fun _ => .ok none
    submitOutputs := fun _ => .ok ()
    handler := fun _ _ => .ok .null
    listMessages := fun _ => .ok [⟨"m8b", [⟨"text", "done"⟩]⟩] }

/-- Witness for C8: a fresh resolution caches thread_8, a second resolution
(against an environment that would create thread_other) still returns
thread_8, and an existing binding survives another user's resolution and a
full run() call. -/
theorem c8_witness :
    ((get_or_create_thread [] envC8 "user_8").1.lookup "user_8" = some "thread_8" ∧
      (get_or_create_thread (get_or_create_thread [] envC8 "user_8").1 envC8b
        "user_8").2.1 = .ok "thread_8") ∧
    ((get_or_create_thread [("user_8", "thread_8")] envC8b "other").1.lookup "user_8" =
        some "thread_8" ∧
      (run [("user_8", "thread_8")] envC8b "hi" "other").1.lookup "user_8" =
        some "thread_8") :=
  ⟨(c8_thread_resolution_idempotent [] envC8 envC8b envC8 "user_8" "other" "thread_8"
      "hi").1 rfl,
   (c8_thread_resolution_idempotent [("user_8", "thread_8")] envC8 envC8b envC8b
      "user_8" "other" "thread_8" "hi").2 rfl⟩

/-- When the snapshot demands action, the dispatch succeeds and the submission
succeeds, handle_tool_calls reports success with exactly one submission
effect carrying the dispatched outputs. -/
theorem handle_tool_calls_ok (env : Env) (t r : String) (k : Nat)
    (calls : List ToolCall) (outs : List ToolOutput)
    (hsnap : env.requiredAction k = .ok (some calls))
    (hd : dispatchToolCalls env.handler calls = .ok outs)
    (hsub : env.submitOutputs k = .ok ()) :
    handle_tool_calls env t r k =
      (.ok "tool_outputs_submitted",
        [.retrieveRun t r k, .submitToolOutputs t r outs]) := by
  unfold handle_tool_calls
  rw [hsnap]
  dsimp only
  rw [hd]
  dsimp only
  rw [hsub]

/-- Environment for the C3 counterexample: a requires_action snapshot with two
tool calls, whose first handler raises. -/
def envC3 : Env :=
  { createThread := .ok "thread_3"
    listRuns := fun _ => .ok []
    addMessage := fun _ _ => .ok "msg_3"
    createRun := fun _ => .ok "run_3"
    runStatus := fun _ => .ok "requires_action"
    requiredAction := fun _ => .ok (some
      [⟨"call_1", "search", .ok (.obj [("query", .str "a")])⟩,
       ⟨"call_2", "rag", .ok (.obj [("query", .str "b")])⟩])
    submitOutputs := fun _ => .ok ()
    handler := fun name _ => if name == "search" then .error "boom" else .ok .null
    listMessages := fun _ => .ok [] }

/-- Counterexample to C3: with two pending tool calls whose first handler
raises, the error is NOT caught per call — the batch aborts, no submission is
sent (zero submit effects instead of one submission with 2 outputs),
handle_tool_calls reports failure, and run() returns the generic failure
answer. -/
theorem c3_counterexample :
    handle_tool_calls envC3 "thread_3" "run_3" 0 =
      (.error "boom", [.retrieveRun "thread_3" "run_3" 0]) ∧
    (handle_tool_calls envC3 "thread_3" "run_3" 0).2.countP Effect.isSubmit = 0 ∧
    (run [] envC3 "hi" "user_3").2.1 = errorAnswer :=
  ⟨rfl, rfl, rfl⟩

/-- C3 (amended): when a requires_action snapshot holds N tool calls whose
arguments all parse and whose registered handlers all return normally (and
the submission call itself succeeds), every call is dispatched and exactly
one combined submission with N outputs, keyed by the calls' correlation ids,
is sent — and (when that iteration's poll observed requires_action) the
submission appears in the loop trace before every later status poll. An
exception raised by an individual handler, however, is not caught per call:
it aborts the batch and no submission is sent (see the counterexample). -/
theorem c3_batch_submission (env : Env) (t r : String) (k : Nat)
    (calls : List ToolCall)
    (hsnap : env.requiredAction k = .ok (some calls))
    (hargs : ∀ c ∈ calls, ∃ a, c.arguments = .ok a)
    (hok : ∀ c ∈ calls, ∀ a, c.arguments = .ok a → c.fname ∈ function_handlers →
      ∃ res, env.handler c.fname a = .ok res)
    (hsub : env.submitOutputs k = .ok ()) :
    ∃ outs, handle_tool_calls env t r k =
        (.ok "tool_outputs_submitted",
          [.retrieveRun t r k, .submitToolOutputs t r outs]) ∧
      outs.length = calls.length ∧
      outs.map ToolOutput.tool_call_id = calls.map ToolCall.id ∧
      (env.runStatus k = .ok "requires_action" → ∀ fuel,
        pollLoop env t r k (fuel + 1) =
          ((pollLoop env t r (k + 1) fuel).1,
            .pollStatus t r k :: ([.retrieveRun t r k, .submitToolOutputs t r outs] ++
              (pollLoop env t r (k + 1) fuel).2))) := by
  obtain ⟨outs, hd, hids, hunk⟩ := dispatchToolCalls_ok env.handler calls hargs hok
  have hh := handle_tool_calls_ok env t r k calls outs hsnap hd hsub
  refine ⟨outs, hh, ?_, hids, ?_⟩
  · have := congrArg List.length hids
    simpa using this
  · intro hstat fuel
    simp [pollLoop, hstat, hh]

/-- Environment for the C3 witness: two tool calls whose handlers both return
normally. -/
def envC3w : Env :=
  { createThread := .ok "thread_3w"
    listRuns := fun _ => .ok []
    addMessage := fun _ _ => .ok "msg_3w"
    createRun := fun _ => .ok "run_3w"
    runStatus := fun _ => .ok "requires_action"
    requiredAction := fun _ => .ok (some
      [⟨"call_1", "search", .ok (.obj [("query", .str "a")])⟩,
       ⟨"call_2", "rag", .ok (.obj [("query", .str "b")])⟩])
    submitOutputs := fun _ => .ok ()
    handler := fun _ _ => .ok (.obj [("success", .bool true)])
    listMessages := fun _ => .ok [] }

/-- Witness for the amended C3: both calls of a 2-call snapshot are dispatched
and one submission with exactly their two correlation ids is sent. -/
theorem c3_witness :
    ∃ outs, handle_tool_calls envC3w "thread_3w" "run_3w" 0 =
        (.ok "tool_outputs_submitted",
          [.retrieveRun "thread_3w" "run_3w" 0,
           .submitToolOutputs "thread_3w" "run_3w" outs]) ∧
      outs.length = 2 ∧
      outs.map ToolOutput.tool_call_id = ["call_1", "call_2"] := by
  obtain ⟨outs, hh, hlen, hids, _⟩ :=
    c3_batch_submission envC3w "thread_3w" "run_3w" 0
      [⟨"call_1", "search", .ok (.obj [("query", .str "a")])⟩,
       ⟨"call_2", "rag", .ok (.obj [("query", .str "b")])⟩]
      rfl
      (by
        intro c hc
        simp only [List.mem_cons, List.not_mem_nil, or_false] at hc
        rcases hc with rfl | rfl
        · exact ⟨_, rfl⟩
        · exact ⟨_, rfl⟩)
      (by
        intro c hc a ha hmem
        exact ⟨.obj [("success", .bool true)], rfl⟩)
      rfl
  exact ⟨outs, hh, by simpa using hlen, by simpa using hids⟩

/-- Environment for the C4 witness: the assistant requests the unregistered
tool "delete_everything". -/
def envC4 : Env :=
  { createThread := .ok "thread_4"
    listRuns := fun _ => .ok []
    addMessage := fun _ _ => .ok "msg_4"
    createRun := fun _ => .ok "run_4"
    runStatus := fun _ => .ok "requires_action"
    requiredAction := fun _ => .ok (some [⟨"call_x", "delete_everything", .ok (.obj [])⟩])
    submitOutputs := fun _ => .ok ()
    handler := fun _ _ => .ok .null
    listMessages := fun _ => .ok [] }

/-- C4: a tool call whose function name is not a key of the dispatch table
yields a tool output whose payload is a JSON object carrying an error field
"Unknown function <name>", submitted with the batch as that call's result
instead of raising, and the poll loop then continues polling (its outcome is
the outcome of the continuation, not a hard failure at this step). -/
theorem c4_unknown_function (env : Env) (t r : String) (k fuel : Nat)
    (calls : List ToolCall) (c : ToolCall)
    (hsnap : env.requiredAction k = .ok (some calls))
    (hargs : ∀ x ∈ calls, ∃ a, x.arguments = .ok a)
    (hok : ∀ x ∈ calls, ∀ a, x.arguments = .ok a → x.fname ∈ function_handlers →
      ∃ res, env.handler x.fname a = .ok res)
    (hsub : env.submitOutputs k = .ok ())
    (hc : c ∈ calls) (hunk : c.fname ∉ function_handlers)
    (hstat : env.runStatus k = .ok "requires_action") :
    ∃ outs, handle_tool_calls env t r k =
        (.ok "tool_outputs_submitted",
          [.retrieveRun t r k, .submitToolOutputs t r outs]) ∧
      (⟨c.id, .obj [("error", .str ("Unknown function " ++ c.fname))]⟩ : ToolOutput) ∈ outs ∧
      (pollLoop env t r k (fuel + 1)).1 = (pollLoop env t r (k + 1) fuel).1 := by
  obtain ⟨outs, hd, hids, hunkAll⟩ := dispatchToolCalls_ok env.handler calls hargs hok
  have hh := handle_tool_calls_ok env t r k calls outs hsnap hd hsub
  refine ⟨outs, hh, hunkAll c hc hunk, ?_⟩
  simp [pollLoop, hstat, hh]

/-- Witness for C4: the unknown tool name "delete_everything" produces an
error-field payload in the single submission and polling continues. -/
theorem c4_witness :
    ∃ outs, handle_tool_calls envC4 "thread_4" "run_4" 0 =
        (.ok "tool_outputs_submitted",
          [.retrieveRun "thread_4" "run_4" 0,
           .submitToolOutputs "thread_4" "run_4" outs]) ∧
      (⟨"call_x", .obj [("error", .str "Unknown function delete_everything")]⟩ :
        ToolOutput) ∈ outs ∧
      (pollLoop envC4 "thread_4" "run_4" 0 (4 + 1)).1 =
        (pollLoop envC4 "thread_4" "run_4" 1 4).1 := by
  obtain ⟨outs, h1, h2, h3⟩ :=
    c4_unknown_function envC4 "thread_4" "run_4" 0 4
      [⟨"call_x", "delete_everything", .ok (.obj [])⟩]
      ⟨"call_x", "delete_everything", .ok (.obj [])⟩
      rfl
      (by
        intro x hx
        simp only [List.mem_cons, List.not_mem_nil, or_false] at hx
        subst hx
        exact ⟨_, rfl⟩)
      (by
        intro x hx a ha hmem
        simp only [List.mem_cons, List.not_mem_nil, or_false] at hx
        subst hx
        exact absurd hmem (by decide))
      rfl (List.mem_singleton_self _) (by decide) rfl
  exact ⟨outs, h1, h2, h3⟩

end Savoir
